import Mathlib

/-!
Verification development for the lavfi-preview core (src/main.cpp).

The definitions below are a shallow embedding of the program's data model
and operations, translated from the source function by function:

* `filters_setup`   — the stop-the-world graph-rebuild routine
                      (src/main.cpp:159-323), modelled as a state
                      transformer that additionally emits an ordered
                      event trace of its teardown/spawn actions;
* `workerInnerStep` / `workerRun`
                    — the per-output producer thread loop
                      (src/main.cpp:113-157);
* `consumerStep`    — the per-frame double-buffer consumer in `main`
                      (src/main.cpp:1604-1622);
* `create_link`, `editor_mutation_tail`, `draw_node_options_nodes`
                    — the filtergraph-editor mutation paths
                      (src/main.cpp:926-1204, 635-689);
* `toggle_commands` — the timeline enable/disable toggle of
                      `show_commands` (src/main.cpp:1476-1497);
* `OptStore` and the per-kind option edit/read paths
                    — the typed option binding of `draw_node_options`
                      (src/main.cpp:694-924); the store itself models the
                      external engine's `av_opt_set*` / `av_opt_get*`
                      contract (spec §6), as the engine is an external
                      collaborator.

External call results (allocation failures, link/config failures, frame
pull results) are passed in as explicit environment data, since they are
inputs of the program, not part of it.
-/

namespace LavfiPreview

/-! ### FFmpeg error codes (AVERROR(e) = -e on Linux; AVERROR_EOF is the
FourCC-derived constant from libavutil/error.h) -/

def AVERROR_EAGAIN : Int := -11
def AVERROR_ENOMEM : Int := -12
def AVERROR_EINVAL : Int := -22
def AVERROR_ENOSYS : Int := -38
def AVERROR_EOF : Int := -541478725

/-! ### Data model (src/main.cpp:30-109) -/

/-- Media type of a pad, the subset of `AVMediaType` the editor uses. -/
inductive MediaType
  | video
  | audio
  | unknown
deriving DecidableEq, Repr

/-- `Edge2Pad` (src/main.cpp:30-34): maps a per-frame slot id to
(node index, direction, pad index). -/
structure Edge2Pad where
  node : Nat
  is_output : Bool
  pad_index : Nat
deriving DecidableEq, Repr

/-- One entry of `filter_nodes` as far as `filters_setup` inspects it,
together with the outcomes of the external engine calls made for this
node during one rebuild attempt (those outcomes are environment inputs).
`serializePrivOk` mirrors the `av_opt_serialize` of the private options
(src/main.cpp:240-243); its failure only logs a warning and does not
affect control flow, so the model never branches on it. -/
structure NodeSpec where
  hasFilter : Bool        -- the `filter` pointer is non-NULL
  isBuffersink : Bool     -- strcmp(filter->name, "buffersink") == 0
  allocCtxOk : Bool       -- avfilter_graph_alloc_filter succeeds
  pixFmtsOk : Bool        -- av_opt_set_int_list("pix_fmts", ...) succeeds
  serializeCtxOk : Bool   -- av_opt_serialize of the ctx options succeeds
  serializePrivOk : Bool  -- warning-only serialize of private options
  setCtxOptsOk : Bool     -- av_opt_set_from_string on the ctx succeeds
  setPrivOptsOk : Bool    -- av_opt_set_from_string on priv succeeds
  initOk : Bool           -- avfilter_init_str succeeds
deriving DecidableEq, Repr

/-- Remaining external-engine outcomes of one rebuild attempt. -/
structure RebuildEnv where
  graphAllocOk : Bool     -- avfilter_graph_alloc succeeds
  linkOk : Nat → Bool     -- result of avfilter_link for link index i
  configOk : Bool         -- avfilter_graph_config succeeds
  dumpText : String       -- text produced by avfilter_graph_dump

/-- The process-wide mutable state touched by `filters_setup`
(src/main.cpp:92-109).  Threads are recorded by their joinable flag,
buffer sinks by the index of the node that created them, mutexes by
their count. -/
structure GlobalState where
  need_filters_reinit : Bool
  video_sink_threads : List Bool
  buffer_sinks : List Nat
  mutexes : Nat
  graphdump : Option String
  filter_graph : Bool               -- a graph instance is live
  filter_nodes : List NodeSpec
  filter_links : List (Nat × Nat)
  edge2pad : List Edge2Pad

/-- Observable actions of `filters_setup`, in program order. -/
inductive Ev
  | join (i : Nat)        -- video_sink_threads[i].join()
  | clearThreads          -- video_sink_threads.clear()
  | clearSinks            -- buffer_sinks.clear()
  | clearMutexes          -- mutexes.clear()
  | freeDump              -- av_freep(&graphdump_text)
  | freeGraph             -- avfilter_graph_free(&filter_graph)
  | pushSink (node : Nat) -- buffer_sinks.push_back(...)
  | spawnThread (i : Nat) -- std::thread(worker_thread, ...)
deriving DecidableEq, Repr

def Ev.isJoin : Ev → Bool
  | .join _ => true
  | _ => false

/-- Events that free the engine instance or mutate the Output/mutex
collections (the actions C1 requires to come after all joins). -/
def Ev.isDestroy : Ev → Bool
  | .clearSinks => true
  | .clearMutexes => true
  | .freeGraph => true
  | _ => false

/-- The join loop at the top of `filters_setup` (src/main.cpp:167-170):
one join event per joinable thread, in index order. -/
def joinEvents (threads : List Bool) : List Ev :=
  ((List.range threads.length).filter (fun i => threads.getD i false)).map Ev.join

/-- The per-node loop of `filters_setup` (src/main.cpp:192-262).
Processes nodes in index order, accumulating the indices of nodes pushed
onto `buffer_sinks`; the first failing engine call aborts with its error
code, keeping the sinks pushed so far (the push at src/main.cpp:226
happens before the later fallible calls of the same iteration). -/
def processNodes : Nat → List NodeSpec → List Nat → List Nat × Option Int
  | _, [], acc => (acc, none)
  | i, n :: rest, acc =>
    if n.hasFilter = false then (acc, some AVERROR_ENOSYS)
    else if n.allocCtxOk = false then (acc, some AVERROR_ENOMEM)
    else if n.isBuffersink = true ∧ n.pixFmtsOk = false then (acc, some AVERROR_EINVAL)
    else
      let acc' := if n.isBuffersink = true then acc ++ [i] else acc
      if n.serializeCtxOk = false then (acc', some AVERROR_EINVAL)
      else if n.setCtxOptsOk = false then (acc', some AVERROR_EINVAL)
      else if n.setPrivOptsOk = false then (acc', some AVERROR_EINVAL)
      else if n.initOk = false then (acc', some AVERROR_EINVAL)
      else processNodes (i + 1) rest acc'

/-- The link loop of `filters_setup` (src/main.cpp:264-286): each stored
link's two slots are resolved through the (previous frame's) `edge2pad`
table; an out-of-range node index or a failing `avfilter_link` aborts. -/
def processLinks (e2p : List Edge2Pad) (nNodes : Nat) (linkOk : Nat → Bool) :
    Nat → List (Nat × Nat) → Option Int
  | _, [] => none
  | i, (p1, p2) :: rest =>
    let x := (e2p.getD p1 ⟨0, false, 0⟩).node
    let y := (e2p.getD p2 ⟨0, false, 0⟩).node
    if nNodes ≤ x ∨ nNodes ≤ y then some AVERROR_EINVAL
    else if linkOk i = false then some AVERROR_EINVAL
    else processLinks e2p nNodes linkOk (i + 1) rest

/-- Body of `filters_setup` after the thread join/clear and the
empty-node-set early return (src/main.cpp:176-322): clear the sink and
mutex collections, free the graph dump and the previous engine instance,
allocate a fresh one, run the node and link loops, configure, and on
success snapshot the dump and spawn one producer thread per sink.  The
`error:` label keeps whatever state was mutated up to the failure and
returns the negative code. -/
def rebuild_core (env : RebuildEnv) (s : GlobalState) : Int × GlobalState × List Ev :=
  if s.filter_nodes = [] then (0, s, [])
  else
    let s0 := { s with buffer_sinks := [], mutexes := 0, graphdump := none }
    let tr0 : List Ev := [Ev.clearSinks, Ev.clearMutexes, Ev.freeDump, Ev.freeGraph]
    if env.graphAllocOk = false then
      (AVERROR_ENOMEM, { s0 with filter_graph := false }, tr0)
    else
      let pr := processNodes 0 s0.filter_nodes []
      let s1 := { s0 with filter_graph := true, buffer_sinks := pr.1 }
      let tr1 := tr0 ++ pr.1.map Ev.pushSink
      match pr.2 with
      | some err => (err, s1, tr1)
      | none =>
        match processLinks s1.edge2pad s1.filter_nodes.length env.linkOk 0 s1.filter_links with
        | some err => (err, s1, tr1)
        | none =>
          if env.configOk = false then (AVERROR_EINVAL, s1, tr1)
          else
            (0, { s1 with graphdump := some env.dumpText,
                          mutexes := pr.1.length,
                          video_sink_threads := List.replicate pr.1.length true },
             tr1 ++ (List.range pr.1.length).map Ev.spawnThread)

/-- `filters_setup` (src/main.cpp:159-323).  Returns the C return value,
the new global state, and the ordered trace of observable actions.  The
function first returns 0 unchanged if no rebuild is pending, then joins
every joinable producer thread and clears the thread list, clears the
pending flag, and returns 0 if the node set is empty; otherwise it runs
`rebuild_core`. -/
def filters_setup (env : RebuildEnv) (s : GlobalState) : Int × GlobalState × List Ev :=
  if s.need_filters_reinit = false then (0, s, [])
  else
    let s1 := { s with video_sink_threads := [], need_filters_reinit := false }
    let res := rebuild_core env s1
    (res.1, res.2.1, (joinEvents s.video_sink_threads ++ [Ev.clearThreads]) ++ res.2.2)

/-! ### The producer thread, `worker_thread` (src/main.cpp:113-157)

State visible to one producer: whether its `BufferSink::ctx` handle is
non-null, the `uploaded_frame` ready flag, how many frame pulls were
attempted so far, and whether the thread has left the outer loop and
released its buffers (src/main.cpp:149-156).  The results of the pulls
are environment input: `pulls k` is the return value of the k-th
`av_buffersink_get_frame_flags` call.  The `speed` estimate and the
`usleep` while paused are timing-only and not modelled. -/
structure WorkerSt where
  ctx_alive : Bool
  uploaded_frame : Bool
  pullCount : Nat
  finished : Bool
deriving DecidableEq, Repr

/-- One entry into the inner `while (!sink->uploaded_frame)` loop
(src/main.cpp:122-142).  Entered with the flag clear it performs exactly
one pull: a result that is negative and not EAGAIN breaks out without
setting the ready flag; any other result (success, or EAGAIN) sets
`uploaded_frame`, after which the loop condition fails. -/
def workerInnerStep (pulls : Nat → Int) (st : WorkerSt) : WorkerSt :=
  if st.uploaded_frame = true then st
  else
    let r := pulls st.pullCount
    let st' := { st with pullCount := st.pullCount + 1 }
    if r < 0 ∧ r ≠ AVERROR_EAGAIN then st'
    else { st' with uploaded_frame := true }

/-- The outer `while (sink->ctx)` loop (src/main.cpp:117-147), run for
`fuel` iterations.  The loop leaves (and the thread then releases its
buffers, recorded by `finished`) only when the handle is null or the
global rebuild flag is set; otherwise each iteration runs the inner
loop once more. -/
def workerRun (reinit : Bool) (pulls : Nat → Int) : Nat → WorkerSt → WorkerSt
  | 0, st => st
  | fuel + 1, st =>
    if st.ctx_alive = false ∨ reinit = true then { st with finished := true }
    else workerRun reinit pulls fuel (workerInnerStep pulls st)

/-! ### The per-frame consumer in `main` (src/main.cpp:1604-1622) -/

/-- One Output's double buffer as the consumer sees it; frames are
identified by abstract ids. -/
structure ConsSink where
  a_frame : Nat
  b_frame : Nat
  uploaded_frame : Bool
deriving DecidableEq, Repr

/-- One iteration of the consumer block for one sink: under the mutex
pick the frame to display (`b_frame` when the ready flag is clear,
`a_frame` otherwise), hand it to `draw_frame`, then under the mutex
again swap the buffers and clear the flag when a frame was ready and
the system is running or single-stepping.  Returns the displayed frame
and the updated sink. -/
def consumerStep (paused framestep : Bool) (s : ConsSink) : Nat × ConsSink :=
  let render_frame := if s.uploaded_frame = false then s.b_frame else s.a_frame
  let s' :=
    if s.uploaded_frame = true ∧ (paused = false ∨ framestep = true) then
      let tmp := s.b_frame
      { s with b_frame := s.a_frame, a_frame := tmp, uploaded_frame := false }
    else s
  (render_frame, s')

/-! ### The filtergraph editor (src/main.cpp:926-1204) -/

/-- The `IsLinkCreated` handler (src/main.cpp:1146-1153): the two slot
ids are resolved through the current frame's `edge2type` table and the
pair is appended to `filter_links` only when the media kinds agree;
otherwise nothing happens and no error is surfaced. -/
def create_link (edge2type : List MediaType) (links : List (Nat × Nat))
    (start_attr end_attr : Nat) : List (Nat × Nat) :=
  let first := edge2type.getD start_attr .unknown
  let second := edge2type.getD end_attr .unknown
  if first = second then links ++ [(start_attr, end_attr)] else links

/-- A node as the editor's deletion code sees it: whether its `filter`
pointer is non-null (deletion nulls it; the compaction pass erases the
nulled entries). -/
structure ENode where
  filterPresent : Bool
deriving DecidableEq, Repr

/-- Null the `filter` pointer of the node at the given index
(src/main.cpp:1182). -/
def nullFilterAt : List ENode → Nat → List ENode
  | [], _ => []
  | _ :: rest, 0 => ⟨false⟩ :: rest
  | n :: rest, k + 1 => n :: nullFilterAt rest k

/-- The delete-selected-nodes loop (src/main.cpp:1179-1192): each
selected attribute id is resolved to a node index through `edge2pad`
and that node's filter pointer is nulled (handles freed). -/
def markDeleted (e2p : List Edge2Pad) (sel : List Nat) (nodes : List ENode) : List ENode :=
  sel.foldl (fun ns nid => nullFilterAt ns (e2p.getD nid ⟨0, false, 0⟩).node) nodes

/-- The compaction pass (src/main.cpp:1195-1201): the do-while walks the
node vector from the last index down to 0 erasing every entry whose
filter pointer is null; since the walk is downward, erasures never shift
an unvisited index, so the pass keeps exactly the non-null entries in
order. -/
def compactNodes (nodes : List ENode) : List ENode :=
  nodes.filter (fun n => n.filterPresent)

/-- The delete-selected-links loop (src/main.cpp:1160-1171): erase at
each selected index in turn, stopping the whole loop when the list is
empty. -/
def applyDeleteLinks : List Nat → List (Nat × Nat) → List (Nat × Nat)
  | [], links => links
  | i :: rest, links =>
    if links.length = 0 then links
    else applyDeleteLinks rest (links.eraseIdx i)

/-- The editor user events consumed after `EndNodeEditor`. -/
structure EditorEvents where
  linkCreated : Option (Nat × Nat)   -- ImNodes::IsLinkCreated
  linkDestroyed : Option Nat         -- ImNodes::IsLinkDestroyed
  deleteLinksSelected : List Nat     -- selected links + X key
  deleteNodesSelected : List Nat     -- selected nodes + X key

/-- The editor state the mutation block touches. -/
structure EditorState where
  nodes : List ENode
  links : List (Nat × Nat)
  edge2pad : List Edge2Pad
  edge2type : List MediaType
deriving Repr

/-- The mutation part of `show_filtergraph_editor`
(src/main.cpp:1139-1201): if any producer thread is joinable the
function returns before processing any event (src/main.cpp:1139-1144);
otherwise it handles link creation, link destruction, selected-link
deletion, selected-node deletion, and the node compaction pass, in that
order. -/
def editor_mutation_tail (threads : List Bool) (ev : EditorEvents)
    (st : EditorState) : EditorState :=
  if threads.any (fun j => j) then st
  else
    let links :=
      match ev.linkCreated with
      | some (sa, ea) => create_link st.edge2type st.links sa ea
      | none => st.links
    let links :=
      match ev.linkDestroyed with
      | some i => links.eraseIdx i
      | none => links
    let links := applyDeleteLinks ev.deleteLinksSelected links
    let nodes := markDeleted st.edge2pad ev.deleteNodesSelected st.nodes
    let nodes := compactNodes nodes
    { st with nodes := nodes, links := links }

/-- The UI events and probe-allocation outcomes one `draw_node_options`
call depends on before it reaches its Remove button. -/
structure NodeOptsUI where
  probeGraphOk : Bool     -- avfilter_graph_alloc for the probe graph
  probeOk : Bool          -- avfilter_graph_alloc_filter for the probe
  optionsClicked : Bool   -- the Options button
  closeClicked : Bool     -- the Close button
  removeClicked : Bool    -- the Remove button

/-- The node-removal path of `draw_node_options` (src/main.cpp:635-689)
as a transformer of `filter_nodes`: early returns on probe allocation
failure or a collapsed panel, the Close button, then — only if no
producer thread is joinable (src/main.cpp:669-672) — the Remove button,
which frees the node's handles and erases it at its index. -/
def draw_node_options_nodes (threads : List Bool) (ui : NodeOptsUI)
    (nodes : List NodeSpec) (nid : Nat) (colapsed : Bool) : List NodeSpec :=
  if ui.probeGraphOk = false then nodes
  else if ui.probeOk = false then nodes
  else if colapsed = false ∧ ui.optionsClicked = false then nodes
  else if ui.closeClicked = true then nodes
  else if threads.any (fun j => j) then nodes
  else if ui.removeClicked = true then nodes.eraseIdx nid
  else nodes

/-! ### The timeline toggle of `show_commands` (src/main.cpp:1476-1497) -/

/-- A live filter context as the toggle sees it.  The list of contexts
stands for `filter_graph->filters`, whose order matches the node index
order because `filters_setup` allocates one context per node in index
order. -/
structure FilterCtx where
  name : String
  is_disabled : Bool
deriving DecidableEq, Repr

/-- A runtime command as passed to `avfilter_graph_send_command`. -/
structure Command where
  target : String
  cmd : String
  arg : String
deriving DecidableEq, Repr

/-- The deferred toggle at the end of `show_commands`
(src/main.cpp:1491-1497): when a toggle is pending for index n, send a
single "enable" command to that filter with argument "0" when
`flag = !is_disabled` is true and "1" otherwise. -/
def toggle_commands (filters : List FilterCtx) (toggle_filter : Option Nat) :
    List Command :=
  match toggle_filter with
  | none => []
  | some n =>
    match filters.get? n with
    | none => []
    | some fc =>
      let flag := fc.is_disabled = false
      [⟨fc.name, "enable", if flag then "0" else "1"⟩]

/-- The reading of claim C8's own words, kept for comparison with the
source behaviour: the argument is the complement of the desired enabled
state, where the desired enabled state after a toggle is the complement
of the current one, and a boolean is rendered as "1"/"0". -/
def claimed_toggle_arg (is_disabled : Bool) : String :=
  let desiredEnabled := is_disabled
  if desiredEnabled = false then "1" else "0"

/-! ### The typed option binding of `draw_node_options`
(src/main.cpp:694-924)

The engine's option table is external (spec §6); it is modelled as an
association store per value representation, with `av_opt_set*` as an
update and `av_opt_get*` as a lookup.  Floating values are modelled
exactly as rationals: every conversion on the binding's paths
(float→double on write, double→float on read of a value that was
written as a float) is value-preserving, so the exact model agrees with
the code on the round trips stated here. -/

def lookupAssoc {α : Type} : List (String × α) → String → Option α
  | [], _ => none
  | (k, v) :: rest, name => if k = name then some v else lookupAssoc rest name

def updAssoc {α : Type} (l : List (String × α)) (k : String) (v : α) :
    List (String × α) :=
  (k, v) :: l

/-- The per-node option table of the external engine, split by the
storage representation the binding's branches use. -/
structure OptStore where
  ints : List (String × Int)              -- INT / INT64 / BOOL / FLAGS
  dbls : List (String × ℚ)                -- FLOAT / DOUBLE
  strs : List (String × String)           -- STRING
  rats : List (String × (Int × Int))      -- RATIONAL

def clampInt (lo hi v : Int) : Int := max lo (min hi v)

def clampQ (lo hi v : ℚ) : ℚ := max lo (min hi v)

/-- The INT branch write path (src/main.cpp:764-784): the widget clamps
the edited value to the option's declared [min,max]
(`ImGuiSliderFlags_AlwaysClamp` / SliderInt bounds) and the committed
value is written back with `av_opt_set_int`. -/
def edit_int (st : OptStore) (name : String) (lo hi v : Int) : OptStore :=
  { st with ints := updAssoc st.ints name (clampInt lo hi v) }

/-- The INT branch read path: `av_opt_get_int`. -/
def read_int (st : OptStore) (name : String) : Option Int :=
  lookupAssoc st.ints name

/-- The BOOL/FLAGS branch write path (src/main.cpp:741-762): as for
INT, a SliderInt/DragInt clamped to [min,max], written back with
`av_opt_set_int`. -/
def edit_bool (st : OptStore) (name : String) (lo hi v : Int) : OptStore :=
  { st with ints := updAssoc st.ints name (clampInt lo hi v) }

/-- The BOOL/FLAGS branch read path: `av_opt_get_int`. -/
def read_bool (st : OptStore) (name : String) : Option Int :=
  lookupAssoc st.ints name

/-- The FLOAT branch write path (src/main.cpp:797-811): a DragFloat
clamped to [min,max]; the committed float is widened to double and
written with `av_opt_set_double`. -/
def edit_float (st : OptStore) (name : String) (lo hi v : ℚ) : OptStore :=
  { st with dbls := updAssoc st.dbls name (clampQ lo hi v) }

/-- The FLOAT branch read path: `av_opt_get_double`, then narrowed to
the widget's float. -/
def read_float (st : OptStore) (name : String) : Option ℚ :=
  lookupAssoc st.dbls name

/-- The STRING branch write path (src/main.cpp:813-827): the InputText
buffer holds at most 1023 characters plus the terminator; the edited
text is written with `av_opt_set`. -/
def edit_string (st : OptStore) (name : String) (v : String) : OptStore :=
  { st with strs := updAssoc st.strs name v }

/-- The STRING branch read path: `av_opt_get`, then the value is copied
into the widget's 1024-byte buffer, which can hold it intact only up to
1023 characters. -/
def read_string (st : OptStore) (name : String) : Option String :=
  (lookupAssoc st.strs name).map
    (fun s => if s.length ≤ 1023 then s else s.take 1023)

/-- The RATIONAL branch write path (src/main.cpp:829-843): a DragInt2
clamped to [-8192, 8192] on both components, written with
`av_opt_set_q`. -/
def edit_rational (st : OptStore) (name : String) (num den : Int) : OptStore :=
  { st with rats :=
      updAssoc st.rats name (clampInt (-8192) 8192 num, clampInt (-8192) 8192 den) }

/-- The RATIONAL branch read path: `av_opt_get_q`. -/
def read_rational (st : OptStore) (name : String) : Option (Int × Int) :=
  lookupAssoc st.rats name

/-! ### Helper lemmas about `filters_setup` -/

theorem joinEvents_mem (threads : List Bool) (i : Nat)
    (hi : i < threads.length) (hj : threads.getD i false = true) :
    Ev.join i ∈ joinEvents threads := by
  unfold joinEvents
  exact List.mem_map.mpr
    ⟨i, List.mem_filter.mpr ⟨List.mem_range.mpr hi, by simpa using hj⟩, rfl⟩

theorem pre_no_destroy (threads : List Bool) (e : Ev)
    (he : e ∈ joinEvents threads ++ [Ev.clearThreads]) : e.isDestroy = false := by
  simp only [joinEvents, List.mem_append, List.mem_map, List.mem_singleton] at he
  rcases he with ⟨i, _, rfl⟩ | rfl <;> rfl

theorem rebuild_core_no_join (env : RebuildEnv) (s : GlobalState) :
    ∀ e ∈ (rebuild_core env s).2.2, e.isJoin = false := by
  intro e he
  cases e <;> try rfl
  exfalso
  simp only [rebuild_core] at he
  split at he
  · simp at he
  · split at he
    · simp at he
    · split at he
      · simp at he
      · split at he
        · simp at he
        · split at he
          · simp at he
          · simp at he

theorem processNodes_err_neg :
    ∀ (ns : List NodeSpec) (i : Nat) (acc : List Nat) (e : Int),
      (processNodes i ns acc).2 = some e → e < 0 := by
  intro ns
  induction ns with
  | nil => intro i acc e h; simp [processNodes] at h
  | cons n rest ih =>
    intro i acc e h
    simp only [processNodes] at h
    split_ifs at h <;>
      first
        | (simp only [Option.some.injEq] at h
           simp [← h, AVERROR_ENOSYS, AVERROR_ENOMEM, AVERROR_EINVAL])
        | exact ih _ _ _ h

theorem processNodes_ok_count :
    ∀ (ns : List NodeSpec) (i : Nat) (acc : List Nat),
      (processNodes i ns acc).2 = none →
      (processNodes i ns acc).1.length =
        acc.length + (ns.filter (fun n => n.isBuffersink)).length := by
  intro ns
  induction ns with
  | nil => intro i acc _; simp [processNodes]
  | cons n rest ih =>
    intro i acc h
    simp only [processNodes] at h ⊢
    by_cases h1 : n.hasFilter = false
    · simp [h1] at h
    by_cases h2 : n.allocCtxOk = false
    · simp [h1, h2] at h
    by_cases h3 : n.isBuffersink = true ∧ n.pixFmtsOk = false
    · simp [h1, h2, h3] at h
    by_cases h4 : n.serializeCtxOk = false
    · simp [h1, h2, h3, h4] at h
    by_cases h5 : n.setCtxOptsOk = false
    · simp [h1, h2, h3, h4, h5] at h
    by_cases h6 : n.setPrivOptsOk = false
    · simp [h1, h2, h3, h4, h5, h6] at h
    by_cases h7 : n.initOk = false
    · simp [h1, h2, h3, h4, h5, h6, h7] at h
    rw [if_neg h1, if_neg h2, if_neg h3, if_neg h4, if_neg h5, if_neg h6, if_neg h7] at h ⊢
    by_cases hb : n.isBuffersink = true
    · rw [if_pos hb] at h ⊢
      rw [ih _ _ h]
      simp [List.filter_cons, hb]
      omega
    · rw [if_neg hb] at h ⊢
      rw [ih _ _ h]
      simp [List.filter_cons, hb]

theorem processLinks_err_neg (e2p : List Edge2Pad) (nN : Nat) (lOk : Nat → Bool) :
    ∀ (ls : List (Nat × Nat)) (i : Nat) (e : Int),
      processLinks e2p nN lOk i ls = some e → e < 0 := by
  intro ls
  induction ls with
  | nil => intro i e h; simp [processLinks] at h
  | cons p rest ih =>
    intro i e h
    obtain ⟨p1, p2⟩ := p
    simp only [processLinks] at h
    split_ifs at h <;>
      first
        | (simp only [Option.some.injEq] at h
           simp [← h, AVERROR_EINVAL])
        | exact ih _ _ h

theorem rebuild_core_post (env : RebuildEnv) (s : GlobalState)
    (hne : s.filter_nodes ≠ []) (hth : s.video_sink_threads = []) :
    ((rebuild_core env s).1 = 0 →
       (rebuild_core env s).2.1.buffer_sinks.length =
         (s.filter_nodes.filter (fun n => n.isBuffersink)).length ∧
       (rebuild_core env s).2.1.video_sink_threads.length =
         (rebuild_core env s).2.1.buffer_sinks.length ∧
       (rebuild_core env s).2.1.mutexes =
         (rebuild_core env s).2.1.buffer_sinks.length) ∧
    ((rebuild_core env s).1 < 0 →
       (rebuild_core env s).2.1.video_sink_threads = [] ∧
       (rebuild_core env s).2.1.mutexes = 0) := by
  simp only [rebuild_core, if_neg hne]
  by_cases hg : env.graphAllocOk = false
  · simp only [if_pos hg]
    exact ⟨fun h0 => absurd (show (-12 : Int) = 0 from h0) (by decide),
      fun _ => ⟨hth, by trivial⟩⟩
  · simp only [if_neg hg]
    rcases hpr : (processNodes 0 s.filter_nodes []).2 with _ | err
    · rcases hpl : processLinks s.edge2pad s.filter_nodes.length env.linkOk 0
          s.filter_links with _ | err2
      · by_cases hc : env.configOk = false
        · simp only [if_pos hc]
          exact ⟨fun h0 => absurd (show (-22 : Int) = 0 from h0) (by decide),
            fun _ => ⟨hth, by trivial⟩⟩
        · simp only [if_neg hc]
          refine ⟨fun _ => ⟨?_, ?_, by trivial⟩,
            fun habs => absurd (show (0 : Int) < 0 from habs) (by decide)⟩
          · simpa using processNodes_ok_count s.filter_nodes 0 [] hpr
          · simp
      · have hneg := processLinks_err_neg s.edge2pad s.filter_nodes.length env.linkOk
          s.filter_links 0 err2 hpl
        exact ⟨fun h0 => absurd (show err2 = 0 from h0) (by omega),
          fun _ => ⟨hth, by trivial⟩⟩
    · have hneg := processNodes_err_neg s.filter_nodes 0 [] err hpr
      exact ⟨fun h0 => absurd (show err = 0 from h0) (by omega),
        fun _ => ⟨hth, by trivial⟩⟩

/-! ### Claims C1, C2, C10 -/

/-- C1: in every execution of `filters_setup` with the rebuild flag set,
the emitted action trace splits into a prefix consisting exactly of the
join of every joinable entry of `video_sink_threads` followed by the
clearing of the thread list, and a suffix containing every
`avfilter_graph_free`, `buffer_sinks.clear()` and `mutexes.clear()`
action (and no join): every producer thread is joined, and the thread
list cleared, before the engine instance is freed or the Output/mutex
collections are mutated. -/
theorem C1_rebuild_joins_before_teardown (env : RebuildEnv) (s : GlobalState)
    (hre : s.need_filters_reinit = true) :
    ∃ pre post,
      (filters_setup env s).2.2 = pre ++ post ∧
      pre = joinEvents s.video_sink_threads ++ [Ev.clearThreads] ∧
      (∀ i, i < s.video_sink_threads.length →
        s.video_sink_threads.getD i false = true → Ev.join i ∈ pre) ∧
      (∀ e ∈ pre, e.isDestroy = false) ∧
      (∀ e ∈ post, e.isJoin = false) := by
  refine ⟨joinEvents s.video_sink_threads ++ [Ev.clearThreads],
    (rebuild_core env
      { s with video_sink_threads := [], need_filters_reinit := false }).2.2,
    ?_, rfl, ?_, ?_, ?_⟩
  · simp [filters_setup, hre]
  · intro i hi hj
    exact List.mem_append_left _ (joinEvents_mem s.video_sink_threads i hi hj)
  · exact fun e he => pre_no_destroy s.video_sink_threads e he
  · exact fun e he => rebuild_core_no_join env _ e he

def c1Env : RebuildEnv := ⟨true, fun _ => true, true, "dump"⟩

def c1State : GlobalState :=
  ⟨true, [true, false, true], [7], 1, some "old", true, [], [], []⟩

/-- Witness for C1 at a concrete rebuild with two joinable threads. -/
theorem C1_witness :
    ∃ pre post,
      (filters_setup c1Env c1State).2.2 = pre ++ post ∧
      pre = joinEvents c1State.video_sink_threads ++ [Ev.clearThreads] ∧
      (∀ i, i < c1State.video_sink_threads.length →
        c1State.video_sink_threads.getD i false = true → Ev.join i ∈ pre) ∧
      (∀ e ∈ pre, e.isDestroy = false) ∧
      (∀ e ∈ post, e.isJoin = false) :=
  C1_rebuild_joins_before_teardown c1Env c1State rfl

def c2OkSink : NodeSpec := ⟨true, true, true, true, true, true, true, true, true⟩

def c2NoFilter : NodeSpec := ⟨false, false, true, true, true, true, true, true, true⟩

def c2Env : RebuildEnv := ⟨true, fun _ => true, true, "dump"⟩

def c2State : GlobalState :=
  ⟨true, [], [], 0, none, false, [c2OkSink, c2NoFilter], [], []⟩

/-- C2 counterexample: a rebuild over two nodes — a fully healthy
buffersink node followed by a node whose filter pointer is NULL — fails
(`AVERROR_ENOSYS`) after the sink was already pushed, so `filters_setup`
returns an error while `buffer_sinks` is nonempty; the claim's
"rebuild fails → the Output set is empty" is false on the code. -/
theorem C2_counterexample :
    (filters_setup c2Env c2State).1 < 0 ∧
    (filters_setup c2Env c2State).2.1.buffer_sinks ≠ [] := by
  exact ⟨by decide, by decide⟩

/-- C2 amended: for a rebuild over a nonempty node set, either
`filters_setup` succeeds and the number of Outputs equals the number of
buffersink-kind nodes (with one thread and one mutex per Output), or it
fails and no producer thread and no mutex is live — while `buffer_sinks`
may retain the entries pushed before the failure point (they are never
consumed, since the render loop requires `mutexes.size() ==
buffer_sinks.size()`). -/
theorem C2_rebuild_outputs_vs_sinks (env : RebuildEnv) (s : GlobalState)
    (hre : s.need_filters_reinit = true) (hne : s.filter_nodes ≠ []) :
    ((filters_setup env s).1 = 0 →
       (filters_setup env s).2.1.buffer_sinks.length =
         (s.filter_nodes.filter (fun n => n.isBuffersink)).length ∧
       (filters_setup env s).2.1.video_sink_threads.length =
         (filters_setup env s).2.1.buffer_sinks.length ∧
       (filters_setup env s).2.1.mutexes =
         (filters_setup env s).2.1.buffer_sinks.length) ∧
    ((filters_setup env s).1 < 0 →
       (filters_setup env s).2.1.video_sink_threads = [] ∧
       (filters_setup env s).2.1.mutexes = 0) := by
  have hcore := rebuild_core_post env
    { s with video_sink_threads := [], need_filters_reinit := false }
    (by simpa using hne) rfl
  simpa [filters_setup, hre] using hcore

def c2wState : GlobalState := { c2State with filter_nodes := [c2OkSink] }

/-- Witness for the amended C2 at a concrete successful rebuild with one
buffersink node. -/
theorem C2_witness :
    c2wState.need_filters_reinit = true ∧
    c2wState.filter_nodes ≠ [] ∧
    (filters_setup c1Env c2wState).1 = 0 ∧
    ((filters_setup c1Env c2wState).2.1.buffer_sinks.length =
      (c2wState.filter_nodes.filter (fun n => n.isBuffersink)).length ∧
     (filters_setup c1Env c2wState).2.1.video_sink_threads.length =
       (filters_setup c1Env c2wState).2.1.buffer_sinks.length ∧
     (filters_setup c1Env c2wState).2.1.mutexes =
       (filters_setup c1Env c2wState).2.1.buffer_sinks.length) :=
  ⟨rfl, by decide, by decide,
   (C2_rebuild_outputs_vs_sinks c1Env c2wState rfl (by decide)).1 (by decide)⟩

/-- C10: when a rebuild is requested while the node set is empty,
`filters_setup` joins and discards all producer threads, clears the
rebuild flag, and returns success with every other piece of state —
previous engine instance, Outputs, mutexes, graph dump — untouched; and
when the rebuild flag is clear it returns success with no state change
at all. -/
theorem C10_empty_rebuild_keeps_outputs (env : RebuildEnv) (s : GlobalState) :
    (s.need_filters_reinit = true → s.filter_nodes = [] →
      filters_setup env s =
        (0, { s with video_sink_threads := [], need_filters_reinit := false },
         joinEvents s.video_sink_threads ++ [Ev.clearThreads])) ∧
    (s.need_filters_reinit = false → filters_setup env s = (0, s, [])) := by
  constructor
  · intro h1 h2
    simp [filters_setup, rebuild_core, h1, h2]
  · intro h1
    simp [filters_setup, h1]

def c10Env : RebuildEnv := ⟨false, fun _ => false, false, "x"⟩

def c10State : GlobalState :=
  ⟨true, [true], [0, 1], 2, some "dump", true, [], [(5, 6)], [⟨0, false, 0⟩]⟩

/-- Witness for C10: an empty-node rebuild over stale outputs leaves the
two stale Outputs, the mutexes, the dump and the engine instance in
place. -/
theorem C10_witness :
    filters_setup c10Env c10State =
      (0, { c10State with video_sink_threads := [], need_filters_reinit := false },
       joinEvents c10State.video_sink_threads ++ [Ev.clearThreads]) :=
  (C10_empty_rebuild_keeps_outputs c10Env c10State).1 rfl rfl

/-! ### Claim C3: terminal pull errors and the producer loop -/

theorem workerRun_zero (reinit : Bool) (pulls : Nat → Int) (st : WorkerSt) :
    workerRun reinit pulls 0 st = st := rfl

theorem workerRun_step (reinit : Bool) (pulls : Nat → Int) (fuel : Nat)
    (st : WorkerSt) (h : ¬(st.ctx_alive = false ∨ reinit = true)) :
    workerRun reinit pulls (fuel + 1) st =
      workerRun reinit pulls fuel (workerInnerStep pulls st) := by
  rw [workerRun, if_neg h]

theorem workerRun_exit (reinit : Bool) (pulls : Nat → Int) (fuel : Nat)
    (st : WorkerSt) (h : st.ctx_alive = false ∨ reinit = true) :
    workerRun reinit pulls (fuel + 1) st = { st with finished := true } := by
  rw [workerRun, if_pos h]

theorem workerInnerStep_pull (pulls : Nat → Int) (st : WorkerSt)
    (hup : st.uploaded_frame = false) :
    (workerInnerStep pulls st).pullCount = st.pullCount + 1 ∧
    (workerInnerStep pulls st).ctx_alive = st.ctx_alive ∧
    (workerInnerStep pulls st).finished = st.finished := by
  unfold workerInnerStep
  rw [if_neg (by simp [hup])]
  by_cases h : pulls st.pullCount < 0 ∧ pulls st.pullCount ≠ AVERROR_EAGAIN
  · simp [h]
  · simp [h]

def eofPulls : Nat → Int := fun _ => AVERROR_EOF

def c3Start : WorkerSt := ⟨true, false, 0, false⟩

/-- C3 counterexample: the sink handle is alive, no rebuild is pending,
the ready flag is clear, and every pull returns AVERROR_EOF — a failure
that is negative and distinct from EAGAIN.  The claim says such a pull
result ends the worker loop with no further pulls; on the code, after
the first failing pull the worker attempts a second one (pull count
reaches 2 within two outer iterations) and has not left the loop or
released its buffers. -/
theorem C3_counterexample :
    (eofPulls 0 < 0 ∧ eofPulls 0 ≠ AVERROR_EAGAIN) ∧
    (workerRun false eofPulls 2 c3Start).pullCount = 2 ∧
    (workerRun false eofPulls 2 c3Start).finished = false := by
  exact ⟨by decide, by decide, by decide⟩

/-- C3 amended: a pull failing with anything other than EAGAIN
terminates only the inner frame-staging loop, without publishing a frame
(the ready flag stays clear); as long as the sink handle stays non-null
and no rebuild is requested, the outer producer loop keeps re-attempting
pulls (two more pulls within two more outer iterations, with the
loop-exit flag unchanged), and the producer loop ends — followed by the
buffer release — once the global rebuild flag is set. -/
theorem C3_terminal_error_inner_only (pulls : Nat → Int) (st : WorkerSt)
    (halive : st.ctx_alive = true) (hup : st.uploaded_frame = false)
    (herr : pulls st.pullCount < 0 ∧ pulls st.pullCount ≠ AVERROR_EAGAIN) :
    (workerInnerStep pulls st).uploaded_frame = false ∧
    (workerRun false pulls 2 st).pullCount = st.pullCount + 2 ∧
    (workerRun false pulls 2 st).finished = st.finished ∧
    (workerRun true pulls 1 st).finished = true := by
  have hst1 : workerInnerStep pulls st = { st with pullCount := st.pullCount + 1 } := by
    unfold workerInnerStep
    rw [if_neg (by simp [hup]), if_pos herr]
  have halive1 : (workerInnerStep pulls st).ctx_alive = true := by
    rw [hst1]; exact halive
  have hrun2 : workerRun false pulls 2 st =
      workerInnerStep pulls (workerInnerStep pulls st) := by
    rw [show (2 : Nat) = 1 + 1 from rfl,
        workerRun_step false pulls 1 st (by simp [halive]),
        workerRun_step false pulls 0 (workerInnerStep pulls st) (by simp [halive1]),
        workerRun_zero]
  have hpull2 := workerInnerStep_pull pulls { st with pullCount := st.pullCount + 1 }
    (show st.uploaded_frame = false from hup)
  refine ⟨by rw [hst1]; exact hup, ?_, ?_, ?_⟩
  · rw [hrun2, hst1, hpull2.1]
  · rw [hrun2, hst1, hpull2.2.2]
  · rw [show (1 : Nat) = 0 + 1 from rfl,
        workerRun_exit true pulls 0 st (Or.inr rfl)]

/-- Witness for the amended C3 at the concrete EOF scenario. -/
theorem C3_witness :
    (workerInnerStep eofPulls c3Start).uploaded_frame = false ∧
    (workerRun false eofPulls 2 c3Start).pullCount = c3Start.pullCount + 2 ∧
    (workerRun false eofPulls 2 c3Start).finished = c3Start.finished ∧
    (workerRun true eofPulls 1 c3Start).finished = true :=
  C3_terminal_error_inner_only eofPulls c3Start rfl rfl ⟨by decide, by decide⟩

/-! ### Claims C4, C5, C6, C7 -/

/-- C4: on each UI frame, for each Output the consumer displays the
front buffer `a_frame` exactly when the ready flag is set and the back
buffer `b_frame` otherwise; it swaps the front/back roles and clears the
flag exactly when the flag is set and the system is not paused or a
single-step was requested; and whenever the ready flag is set the frame
displayed this iteration is the front buffer — so a ready frame is
displayed before any swap retires it, in both paused and single-step
modes. -/
theorem C4_display_then_swap (paused framestep : Bool) (s : ConsSink) :
    ((consumerStep paused framestep s).1 =
      if s.uploaded_frame = true then s.a_frame else s.b_frame) ∧
    ((consumerStep paused framestep s).2 =
      if s.uploaded_frame = true ∧ (paused = false ∨ framestep = true) then
        ⟨s.b_frame, s.a_frame, false⟩ else s) ∧
    (s.uploaded_frame = true → (consumerStep paused framestep s).1 = s.a_frame) := by
  obtain ⟨a, b, u⟩ := s
  cases u <;> cases paused <;> cases framestep <;> simp [consumerStep]

/-- Witness for C4 at a ready, unpaused sink. -/
theorem C4_witness :
    ((consumerStep false false ⟨5, 9, true⟩).1 =
      if (true : Bool) = true then 5 else 9) ∧
    ((consumerStep false false ⟨5, 9, true⟩).2 =
      if (true : Bool) = true ∧ ((false : Bool) = false ∨ (false : Bool) = true) then
        (⟨9, 5, false⟩ : ConsSink) else ⟨5, 9, true⟩) ∧
    ((true : Bool) = true → (consumerStep false false ⟨5, 9, true⟩).1 = 5) :=
  C4_display_then_swap false false ⟨5, 9, true⟩

/-- C5: a link-creation event over two slots of the current frame's
`edge2type` table appends the pair to the persisted link list exactly
when the two resolved media kinds are equal; when they differ the list
is returned unchanged (the handler surfaces no error — it produces
nothing but the list). -/
theorem C5_link_created_typecheck (t : List MediaType) (links : List (Nat × Nat))
    (sa ea : Nat) (hs : sa < t.length) (he : ea < t.length) :
    (create_link t links sa ea = links ++ [(sa, ea)] ↔
      t.getD sa .unknown = t.getD ea .unknown) ∧
    (t.getD sa .unknown ≠ t.getD ea .unknown →
      create_link t links sa ea = links) := by
  have hun : create_link t links sa ea =
      if t.getD sa .unknown = t.getD ea .unknown then links ++ [(sa, ea)] else links := rfl
  by_cases h : t.getD sa .unknown = t.getD ea .unknown
  · exact ⟨⟨fun _ => h, fun _ => by rw [hun, if_pos h]⟩, fun hne => absurd h hne⟩
  · refine ⟨⟨fun hap => ?_, fun hh => absurd hh h⟩, fun _ => by rw [hun, if_neg h]⟩
    exfalso
    rw [hun, if_neg h] at hap
    have hlen := congrArg List.length hap
    simp at hlen

/-- Witness for C5: a matching pair is appended, a mismatched pair is a
no-op. -/
theorem C5_witness :
    ((create_link [MediaType.video, MediaType.video] [] 0 1 = [] ++ [(0, 1)] ↔
        ([MediaType.video, MediaType.video]).getD 0 .unknown =
          ([MediaType.video, MediaType.video]).getD 1 .unknown) ∧
      (([MediaType.video, MediaType.video]).getD 0 .unknown ≠
          ([MediaType.video, MediaType.video]).getD 1 .unknown →
        create_link [MediaType.video, MediaType.video] [] 0 1 = [])) ∧
    ((create_link [MediaType.video, MediaType.audio] [] 0 1 = [] ++ [(0, 1)] ↔
        ([MediaType.video, MediaType.audio]).getD 0 .unknown =
          ([MediaType.video, MediaType.audio]).getD 1 .unknown) ∧
      (([MediaType.video, MediaType.audio]).getD 0 .unknown ≠
          ([MediaType.video, MediaType.audio]).getD 1 .unknown →
        create_link [MediaType.video, MediaType.audio] [] 0 1 = [])) :=
  ⟨C5_link_created_typecheck [MediaType.video, MediaType.video] [] 0 1
      (by decide) (by decide),
   C5_link_created_typecheck [MediaType.video, MediaType.audio] [] 0 1
      (by decide) (by decide)⟩

/-- C6: while any producer thread is joinable, both removal paths are
unreachable: the editor's whole mutation tail (link create/destroy,
selected-link and selected-node deletion, compaction) returns before
touching anything, and `draw_node_options` returns before drawing its
Remove button — so the node set, the link set and the node handles are
left unchanged. -/
theorem C6_removal_blocked_while_running (threads : List Bool)
    (ev : EditorEvents) (st : EditorState) (ui : NodeOptsUI)
    (nodes : List NodeSpec) (nid : Nat) (colapsed : Bool)
    (hj : threads.any (fun j => j) = true) :
    editor_mutation_tail threads ev st = st ∧
    draw_node_options_nodes threads ui nodes nid colapsed = nodes := by
  constructor
  · simp [editor_mutation_tail, hj]
  · unfold draw_node_options_nodes
    split_ifs <;> rfl

def c6Ui : NodeOptsUI := ⟨true, true, true, false, true⟩

def c6Ev : EditorEvents := ⟨some (1, 3), some 0, [0], [2]⟩

def c6St : EditorState :=
  ⟨[⟨true⟩, ⟨true⟩], [(1, 3)],
    [⟨0, false, 0⟩, ⟨0, true, 0⟩, ⟨1, false, 0⟩, ⟨1, false, 0⟩],
    [.unknown, .video, .unknown, .video]⟩

/-- Witness for C6: with one joinable thread, a Remove click and a full
set of editor deletion events change nothing. -/
theorem C6_witness :
    editor_mutation_tail [true] c6Ev c6St = c6St ∧
    draw_node_options_nodes [true] c6Ui [c2OkSink, c2NoFilter] 1 true =
      [c2OkSink, c2NoFilter] :=
  C6_removal_blocked_while_running [true] c6Ev c6St c6Ui
    [c2OkSink, c2NoFilter] 1 true (by decide)

/-- Does either slot of a stored link resolve, through the given
`edge2pad` table, to the given node index? -/
def linkResolvesTo (e2p : List Edge2Pad) (l : Nat × Nat) (n : Nat) : Bool :=
  ((e2p.getD l.1 ⟨0, false, 0⟩).node == n) || ((e2p.getD l.2 ⟨0, false, 0⟩).node == n)

def c7St : EditorState :=
  ⟨[⟨true⟩, ⟨true⟩], [(1, 3)],
    [⟨0, false, 0⟩, ⟨0, true, 0⟩, ⟨1, false, 0⟩, ⟨1, false, 0⟩],
    [.unknown, .video, .unknown, .video]⟩

def c7Ev : EditorEvents := ⟨none, none, [], [2]⟩

/-- C7 counterexample: in a two-node frame (node 0 with output slot 1,
node 1 with input slot 3) holding the link (1, 3), deleting node 1 with
no producer threads running erases the node — but the persisted link
list still contains (1, 3), whose destination slot resolves to the
removed node: the claimed cascading link removal does not happen. -/
theorem C7_counterexample :
    (editor_mutation_tail [] c7Ev c7St).nodes = [⟨true⟩] ∧
    (editor_mutation_tail [] c7Ev c7St).links = [(1, 3)] ∧
    linkResolvesTo c7St.edge2pad (1, 3) 1 = true := by
  exact ⟨by decide, by decide, by decide⟩

/-- C7 amended: a successful node removal (no threads joinable) erases
the node but performs no cascading link removal: in any frame without
link events of its own, the persisted link list is exactly unchanged, so
entries resolving to the removed node remain until the user deletes
them or a rebuild fails over them. -/
theorem C7_remove_node_keeps_links (threads : List Bool) (ev : EditorEvents)
    (st : EditorState) (h1 : ev.linkCreated = none) (h2 : ev.linkDestroyed = none)
    (h3 : ev.deleteLinksSelected = []) :
    (editor_mutation_tail threads ev st).links = st.links := by
  unfold editor_mutation_tail
  split_ifs with ht
  · rfl
  · simp [h1, h2, h3, applyDeleteLinks]

/-- Witness for the amended C7 at the counterexample's node deletion. -/
theorem C7_witness :
    (editor_mutation_tail [] c7Ev c7St).links = c7St.links :=
  C7_remove_node_keeps_links [] c7Ev c7St rfl rfl rfl

/-! ### Claims C8, C9 -/

/-- C8 counterexample: toggling a currently-enabled timeline node
(is_disabled = false).  The code sends the single command
("enable", "0") — matching the claim's own parenthetical — but the
claim's formula "the argument is the complement of the desired enabled
state" yields "1" for this node (desired enabled state after the toggle
is false, complement true), so the claim as stated is false. -/
theorem C8_counterexample :
    toggle_commands [⟨"f", false⟩] (some 0) =
      [⟨"f", "enable", "0"⟩] ∧
    claimed_toggle_arg false = "1" ∧
    ("0" : String) ≠ "1" := by
  exact ⟨by decide, by decide, by decide⟩

/-- C8 amended: activating the enable/disable toggle of a committed
timeline-capable node sends exactly one runtime command named "enable"
addressed to that node, whose string argument is the complement of the
CURRENT enabled state — that is, the desired enabled state itself: "0"
when toggling a currently-enabled node, "1" when toggling a
currently-disabled one. -/
theorem C8_toggle_sends_desired_state (filters : List FilterCtx) (n : Nat)
    (fc : FilterCtx) (h : filters.get? n = some fc) :
    toggle_commands filters (some n) =
      [⟨fc.name, "enable", if fc.is_disabled = true then "1" else "0"⟩] := by
  unfold toggle_commands
  dsimp only
  rw [h]
  cases hd : fc.is_disabled <;> simp [hd]

/-- Witness for the amended C8 on a currently-disabled node. -/
theorem C8_witness :
    toggle_commands [⟨"g", true⟩] (some 0) =
      [⟨("g" : String), "enable",
        if (true : Bool) = true then "1" else "0"⟩] :=
  C8_toggle_sends_desired_state [⟨"g", true⟩] 0 ⟨"g", true⟩ rfl

theorem clampInt_eq (lo hi v : Int) (h1 : lo ≤ v) (h2 : v ≤ hi) :
    clampInt lo hi v = v := by
  unfold clampInt
  rw [min_eq_right h2, max_eq_right h1]

theorem clampQ_eq (lo hi v : ℚ) (h1 : lo ≤ v) (h2 : v ≤ hi) :
    clampQ lo hi v = v := by
  unfold clampQ
  rw [min_eq_right h2, max_eq_right h1]

theorem lookupAssoc_updAssoc {α : Type} (l : List (String × α)) (k : String) (v : α) :
    lookupAssoc (updAssoc l k v) k = some v := by
  simp [updAssoc, lookupAssoc]

/-- C9: for each supported value kind — integer, boolean, float, string,
rational — setting an option to an in-range value through the binding's
edit path and reading it back through the same binding's read path
yields the value unchanged (no rebuild in between: the store is the
same).  In-range means within the option's declared [min,max] for the
numeric kinds, within the widget's fixed ±8192 range for rational
components, and within the 1023-character InputText buffer for
strings. -/
theorem C9_option_roundtrip (st : OptStore) (name : String)
    (loI hiI vI : Int) (hI1 : loI ≤ vI) (hI2 : vI ≤ hiI)
    (loB hiB vB : Int) (hB1 : loB ≤ vB) (hB2 : vB ≤ hiB)
    (loF hiF vF : ℚ) (hF1 : loF ≤ vF) (hF2 : vF ≤ hiF)
    (vS : String) (hS : vS.length ≤ 1023)
    (nq dq : Int) (hq1 : -8192 ≤ nq) (hq2 : nq ≤ 8192)
    (hq3 : -8192 ≤ dq) (hq4 : dq ≤ 8192) :
    read_int (edit_int st name loI hiI vI) name = some vI ∧
    read_bool (edit_bool st name loB hiB vB) name = some vB ∧
    read_float (edit_float st name loF hiF vF) name = some vF ∧
    read_string (edit_string st name vS) name = some vS ∧
    read_rational (edit_rational st name nq dq) name = some (nq, dq) := by
  refine ⟨?_, ?_, ?_, ?_, ?_⟩
  · rw [read_int, edit_int, clampInt_eq loI hiI vI hI1 hI2]
    exact lookupAssoc_updAssoc st.ints name vI
  · rw [read_bool, edit_bool, clampInt_eq loB hiB vB hB1 hB2]
    exact lookupAssoc_updAssoc st.ints name vB
  · rw [read_float, edit_float, clampQ_eq loF hiF vF hF1 hF2]
    exact lookupAssoc_updAssoc st.dbls name vF
  · rw [read_string, edit_string, lookupAssoc_updAssoc st.strs name vS]
    simp [hS]
  · rw [read_rational, edit_rational,
        clampInt_eq (-8192) 8192 nq hq1 hq2, clampInt_eq (-8192) 8192 dq hq3 hq4]
    exact lookupAssoc_updAssoc st.rats name (nq, dq)

/-- Witness for C9 at a fresh store and concrete in-range values of each
kind. -/
theorem C9_witness :
    read_int (edit_int ⟨[], [], [], []⟩ "x" (-5) 5 3) "x" = some 3 ∧
    read_bool (edit_bool ⟨[], [], [], []⟩ "x" 0 1 1) "x" = some 1 ∧
    read_float (edit_float ⟨[], [], [], []⟩ "x" 0 10 (7 / 2)) "x" = some (7 / 2) ∧
    read_string (edit_string ⟨[], [], [], []⟩ "x" "hello") "x" = some "hello" ∧
    read_rational (edit_rational ⟨[], [], [], []⟩ "x" 30 1) "x" = some (30, 1) :=
  C9_option_roundtrip ⟨[], [], [], []⟩ "x"
    (-5) 5 3 (by decide) (by decide)
    0 1 1 (by decide) (by decide)
    0 10 (7 / 2) (by norm_num) (by norm_num)
    "hello" (by decide)
    30 1 (by decide) (by decide) (by decide) (by decide)

end LavfiPreview
